import Mathlib

/-!
Shallow embedding of `src/src/mcp-server/tools/monitor_script_logs.py`:
the log-monitoring tool of the tycoon-ai-bim-platform repository.  Lines are
lists of characters, files are lists of physical lines, the filesystem is an
explicit snapshot record, and the current time is an explicit parameter, so
every Python function of the module becomes a pure, executable Lean function.
-/

set_option maxRecDepth 8000

namespace TycoonLogs

/-- Model of a CPython `datetime.datetime` value: seven integer fields
(year, month, day, hour, minute, second, microsecond).  The tool creates
datetimes via `datetime.now()`, `datetime.strptime` and `timedelta`
subtraction. -/
structure DateTime where
  year : Nat
  month : Nat
  day : Nat
  hour : Nat
  minute : Nat
  second : Nat
  micro : Nat
deriving DecidableEq, Repr

/-- Gregorian leap-year rule, as used by CPython's `datetime` range checks. -/
def isLeapYear (y : Nat) : Bool :=
  y % 4 == 0 && (y % 100 != 0 || y % 400 == 0)

/-- Number of days in a month, used by `datetime.strptime` validation. -/
def daysInMonth (y m : Nat) : Nat :=
  if m = 2 then (if isLeapYear y then 29 else 28)
  else if m = 4 ∨ m = 6 ∨ m = 9 ∨ m = 11 then 30
  else 31

/-- Days from 0000-03-01 to the given proleptic-Gregorian civil date
(standard civil-from-days arithmetic, valid for dates from year 1 on).
Used to place datetimes on the absolute timeline, exactly as CPython's
`datetime` ordinal arithmetic does. -/
def daysFromCivil (y m d : Nat) : Nat :=
  let y2 := if m ≤ 2 then y - 1 else y
  let era := y2 / 400
  let yoe := y2 % 400
  let mp := (m + 9) % 12
  let doy := (153 * mp + 2) / 5 + (d - 1)
  let doe := yoe * 365 + yoe / 4 - yoe / 100 + doy
  era * 146097 + doe

/-- Microseconds since 0000-03-01T00:00:00 for a datetime.  For valid
datetimes this is a strictly monotone encoding, so CPython's field-wise
`datetime` comparison coincides with comparison of these numbers. -/
def DateTime.toMicros (t : DateTime) : Nat :=
  ((daysFromCivil t.year t.month t.day) * 86400
    + t.hour * 3600 + t.minute * 60 + t.second) * 1000000 + t.micro

/-- CPython `datetime` strict comparison (`entry_time < cutoff_time`). -/
def DateTime.ltb (a b : DateTime) : Bool :=
  decide (a.toMicros < b.toMicros)

/-- Left-pad a decimal numeral with zeros. -/
def padNum (width n : Nat) : String :=
  let s := toString n
  String.mk (List.replicate (width - s.length) '0') ++ s

/-- CPython `datetime.isoformat()`: `YYYY-MM-DDTHH:MM:SS` with a
`.ffffff` part exactly when the microsecond field is nonzero. -/
def DateTime.isoformat (t : DateTime) : String :=
  padNum 4 t.year ++ "-" ++ padNum 2 t.month ++ "-" ++ padNum 2 t.day ++ "T"
    ++ padNum 2 t.hour ++ ":" ++ padNum 2 t.minute ++ ":" ++ padNum 2 t.second
    ++ (if t.micro = 0 then "" else "." ++ padNum 6 t.micro)

/-- ASCII whitespace stripped by Python's `str.strip()` (the log lines in
scope are ASCII/UTF-8 text; the exotic Unicode space code points that
Python additionally strips never occur in the modelled inputs). -/
def isPySpace (c : Char) : Bool :=
  c = ' ' || c = '\t' || c = '\n' || c = '\r' || c = '\x0b' || c = '\x0c'

/-- Python `str.strip()` on a line (`line = line.strip()`). -/
def stripChars (s : List Char) : List Char :=
  ((s.dropWhile isPySpace).reverse.dropWhile isPySpace).reverse

/-- Does the first list occur at the head of the second
(needle-at-position test used by substring search)? -/
def headMatches : List Char → List Char → Bool
  | [], _ => true
  | _ :: _, [] => false
  | a :: as, b :: bs => a == b && headMatches as bs

/-- Python `needle in hay` on strings: some position of `hay` starts with
`needle` (the empty needle always matches). -/
def containsSub (needle : List Char) : List Char → Bool
  | [] => needle.isEmpty
  | c :: rest => headMatches needle (c :: rest) || containsSub needle rest

/-- One token of the fixed-shape timestamp regexes: a (ASCII) digit class
`\d` or a literal character. -/
inductive PTok where
  | digit : PTok
  | lit : Char → PTok
deriving DecidableEq

/-- Match a fixed token shape at the head of a line; returns the matched
characters and the remainder.  Each token consumes exactly one character,
mirroring the backtracking-free fixed-count regexes of the tool. -/
def matchToks : List PTok → List Char → Option (List Char × List Char)
  | [], s => some ([], s)
  | _ :: _, [] => none
  | t :: ts, c :: s =>
    let ok := match t with
      | .digit => c.isDigit
      | .lit l => c == l
    if ok then
      match matchToks ts s with
      | some (m, rest) => some (c :: m, rest)
      | none => none
    else none

/-- Python `re.search` for a fixed shape: leftmost match wins; returns the
matched characters. -/
def searchToks (toks : List PTok) : List Char → Option (List Char)
  | [] => (matchToks toks []).map (fun p => p.1)
  | c :: rest =>
    match matchToks toks (c :: rest) with
    | some (m, _) => some m
    | none => searchToks toks rest

/-- Python `re.sub(pattern, "", s)` for a fixed nonempty shape: every
non-overlapping leftmost occurrence is removed.  The fuel argument equals
the length of the string; since every shape used here is nonempty, each
step consumes at least one character and the fuel never runs out. -/
def removeToksAux (toks : List PTok) : Nat → List Char → List Char
  | 0, s => s
  | _ + 1, [] => []
  | fuel + 1, c :: rest =>
    match matchToks toks (c :: rest) with
    | some (_, after) => removeToksAux toks fuel after
    | none => c :: removeToksAux toks fuel rest

def removeToks (toks : List PTok) (s : List Char) : List Char :=
  removeToksAux toks s.length s

def digitToks (n : Nat) : List PTok := List.replicate n PTok.digit

/-- `\[(\d{4}-\d{2}-\d{2} \d{2}:\d{2}:\d{2}\.\d{3})\]`. -/
def tsPat1 : List PTok :=
  [PTok.lit '['] ++ digitToks 4 ++ [PTok.lit '-'] ++ digitToks 2 ++ [PTok.lit '-']
    ++ digitToks 2 ++ [PTok.lit ' '] ++ digitToks 2 ++ [PTok.lit ':'] ++ digitToks 2
    ++ [PTok.lit ':'] ++ digitToks 2 ++ [PTok.lit '.'] ++ digitToks 3 ++ [PTok.lit ']']

/-- `\[(\d{4}-\d{2}-\d{2} \d{2}:\d{2}:\d{2})\]`. -/
def tsPat2 : List PTok :=
  [PTok.lit '['] ++ digitToks 4 ++ [PTok.lit '-'] ++ digitToks 2 ++ [PTok.lit '-']
    ++ digitToks 2 ++ [PTok.lit ' '] ++ digitToks 2 ++ [PTok.lit ':'] ++ digitToks 2
    ++ [PTok.lit ':'] ++ digitToks 2 ++ [PTok.lit ']']

/-- `\[(\d{2}:\d{2}:\d{2}\.\d{3})\]`. -/
def tsPat3 : List PTok :=
  [PTok.lit '['] ++ digitToks 2 ++ [PTok.lit ':'] ++ digitToks 2 ++ [PTok.lit ':']
    ++ digitToks 2 ++ [PTok.lit '.'] ++ digitToks 3 ++ [PTok.lit ']']

/-- `\[(\d{2}:\d{2}:\d{2})\]`. -/
def tsPat4 : List PTok :=
  [PTok.lit '['] ++ digitToks 2 ++ [PTok.lit ':'] ++ digitToks 2 ++ [PTok.lit ':']
    ++ digitToks 2 ++ [PTok.lit ']']

/-- The `timestamp_patterns` list, in the tool's order (most to least
specific). -/
def tsPatterns : List (List PTok) := [tsPat1, tsPat2, tsPat3, tsPat4]

/-- Try the patterns in order; the first one with a search hit wins, and
its capture group (the match without the surrounding brackets) is
returned — the `for pattern in timestamp_patterns` loop with `break`. -/
def findTimestampRaw : List (List PTok) → List Char → Option (List Char)
  | [], _ => none
  | p :: ps, line =>
    match searchToks p line with
    | some m => some ((m.drop 1).dropLast)
    | none => findTimestampRaw ps line

/-- Numeric value of a digit string. -/
def digitsVal (ds : List Char) : Nat :=
  ds.foldl (fun a c => a * 10 + (c.toNat - 48)) 0

def sliceVal (s : List Char) (off len : Nat) : Nat :=
  digitsVal ((s.drop off).take len)

/-- `datetime` constructor range checks on a date. -/
def validDate (y m d : Nat) : Bool :=
  decide (1 ≤ y) && decide (1 ≤ m) && decide (m ≤ 12)
    && decide (1 ≤ d) && decide (d ≤ daysInMonth y m)

/-- `datetime` constructor range checks on a time of day. -/
def validTime (h mi s : Nat) : Bool :=
  decide (h ≤ 23) && decide (mi ≤ 59) && decide (s ≤ 59)

/-- Shape `\d{4}-\d{2}-\d{2} \d{2}:\d{2}:\d{2}` (the full-date strptime
formats, without the brackets). -/
def innerPatNoFrac : List PTok :=
  digitToks 4 ++ [PTok.lit '-'] ++ digitToks 2 ++ [PTok.lit '-'] ++ digitToks 2
    ++ [PTok.lit ' '] ++ digitToks 2 ++ [PTok.lit ':'] ++ digitToks 2
    ++ [PTok.lit ':'] ++ digitToks 2

def innerPatFrac : List PTok := innerPatNoFrac ++ [PTok.lit '.'] ++ digitToks 3

/-- Field extraction for a fixed-position full datetime string
`YYYY-MM-DD HH:MM:SS(.fff)`; `%f` of width 3 scales to microseconds. -/
def buildFullDT (raw : List Char) (frac : Bool) : Option DateTime :=
  let y := sliceVal raw 0 4
  let mo := sliceVal raw 5 2
  let d := sliceVal raw 8 2
  let h := sliceVal raw 11 2
  let mi := sliceVal raw 14 2
  let s := sliceVal raw 17 2
  let us := if frac then (sliceVal raw 20 3) * 1000 else 0
  if validDate y mo d && validTime h mi s then
    some ⟨y, mo, d, h, mi, s, us⟩
  else none

/-- `datetime.strptime(raw, fmt)` for the has-date branch of the tool:
the format carries a fractional part exactly when `raw` contains a dot.
Fails (returns `none`) whenever the string does not fully match the shape
or a field is outside `datetime`'s ranges — in particular a time-only
string such as `21:45:32.123` (length 12, taken by the tool for a dated
string because 12 is greater than 10) never parses here, exactly as in
CPython. -/
def strptimeFull (raw : List Char) : Option DateTime :=
  if raw.contains '.' then
    match matchToks innerPatFrac raw with
    | some (_, []) => buildFullDT raw true
    | _ => none
  else
    match matchToks innerPatNoFrac raw with
    | some (_, []) => buildFullDT raw false
    | _ => none

def innerPatTime : List PTok :=
  digitToks 2 ++ [PTok.lit ':'] ++ digitToks 2 ++ [PTok.lit ':'] ++ digitToks 2

/-- The time-only branch: `datetime.strptime(f"{today} {raw}", ...)` with
`today = datetime.now().date()`.  Any raw string reaching this branch has
length at most 10, so it can only be the dot-free `HH:MM:SS` shape (the
fractional time-only pattern always captures 12 characters and is routed
to the has-date branch); the dotted sub-case is therefore unreachable and
only the plain shape is modelled. -/
def strptimeTimeToday (now : DateTime) (raw : List Char) : Option DateTime :=
  match matchToks innerPatTime raw with
  | some (_, []) =>
    let h := sliceVal raw 0 2
    let mi := sliceVal raw 3 2
    let s := sliceVal raw 6 2
    if validTime h mi s then some ⟨now.year, now.month, now.day, h, mi, s, 0⟩
    else none
  | _ => none

/-- Timestamp resolution: `len(match.group(1)) > 10` selects the
has-date interpretation, otherwise today's date is prepended. -/
def resolveTimestamp (now : DateTime) (raw : List Char) : Option DateTime :=
  if raw.length > 10 then strptimeFull raw else strptimeTimeToday now raw

/-- Error markers of the classifier (line 207 of the source). -/
def errorMarkers : List (List Char) :=
  ["❌".toList, "ERROR".toList, "Failed".toList, "Exception".toList]

def warningMarkers : List (List Char) :=
  ["⚠️".toList, "WARN".toList, "Warning".toList]

def successMarkers : List (List Char) :=
  ["✅".toList, "SUCCESS".toList, "completed".toList, "🔥".toList, "💾".toList]

def infoMarkers : List (List Char) :=
  ["🔍".toList, "🔄".toList, "📊".toList, "INFO".toList]

/-- Python `any(indicator in line for indicator in markers)`. -/
def hasAnyMarker (ms : List (List Char)) (line : List Char) : Bool :=
  ms.any (fun m => containsSub m line)

/-- The emoji character class of the extraction regex (a single-character
class, so `re.findall` is a filter over the line). -/
def isEmojiChar (c : Char) : Bool :=
  let n := c.toNat
  (decide (0x1F600 ≤ n) && decide (n ≤ 0x1F64F))
    || (decide (0x1F300 ≤ n) && decide (n ≤ 0x1F5FF))
    || (decide (0x1F680 ≤ n) && decide (n ≤ 0x1F6FF))
    || (decide (0x1F1E0 ≤ n) && decide (n ≤ 0x1F1FF))
    || (decide (0x2600 ≤ n) && decide (n ≤ 0x27BF))

/-- Remove every timestamp-pattern occurrence, stripping after each
substitution (`message = re.sub(pattern, "", message).strip()` in a loop
over the four patterns). -/
def removeTsAll (line : List Char) : List Char :=
  tsPatterns.foldl (fun msg p => stripChars (removeToks p msg)) line

/-- Case-insensitive literal match at the head of a string (the
`re.IGNORECASE` flag on ASCII words); returns the remainder. -/
def matchCILit : List Char → List Char → Option (List Char)
  | [], rest => some rest
  | _ :: _, [] => none
  | w :: ws, c :: cs =>
    if w.toLower == c.toLower then matchCILit ws cs else none

/-- `re.sub(r'^\[WORD\]\s*\[Tycoon\]\s*', '', s, flags=re.IGNORECASE)`:
anchored at the start, so at most one removal happens. -/
def stripLevelTag (word : List Char) (s : List Char) : List Char :=
  match s with
  | '[' :: rest =>
    match matchCILit word rest with
    | some (']' :: r2) =>
      match r2.dropWhile isPySpace with
      | '[' :: r4 =>
        match matchCILit ("Tycoon".toList) r4 with
        | some (']' :: r6) => r6.dropWhile isPySpace
        | _ => s
      | _ => s
    | _ => s
  | _ => s

/-- Message cleanup of `_parse_log_line`: drop timestamps, then the three
recognized `[LEVEL] [Tycoon]` prefixes, stripping after each step. -/
def cleanMessage (line : List Char) : List Char :=
  let m1 := removeTsAll line
  ["INFO".toList, "ERROR".toList, "WARN".toList].foldl
    (fun msg w => stripChars (stripLevelTag w msg)) m1

/-- One parsed line, mirroring the entry dictionary built by
`_parse_log_line`.  The `parsed_timestamp` string of the Python dict is an
`isoformat` image, and the tool only ever round-trips it through
`datetime.fromisoformat` (the identity on such strings), so it is kept
here as the datetime value itself, `none` when parsing failed. -/
structure LogEntry where
  source : String
  line_number : Nat
  raw_line : List Char
  timestamp : List Char
  parsed_timestamp : Option DateTime
  level : String
  message : List Char
  emojis : List Char
  contains_error : Bool
  contains_success : Bool
deriving DecidableEq, Repr

/-- `_parse_log_line(line, source, line_num)`, with the current time made
explicit (the Python code calls `datetime.now()` for the time-only
timestamp branch). -/
def parseLogLine (now : DateTime) (line : List Char) (source : String)
    (line_num : Nat) : LogEntry :=
  let rawTs := findTimestampRaw tsPatterns line
  let parsed := match rawTs with
    | some r => resolveTimestamp now r
    | none => none
  let err := hasAnyMarker errorMarkers line
  let warn := hasAnyMarker warningMarkers line
  let suc := hasAnyMarker successMarkers line
  { source := source
    line_number := line_num
    raw_line := line
    timestamp := rawTs.getD []
    parsed_timestamp := parsed
    level := if err then "error" else if warn then "warning"
             else if suc then "success" else "info"
    message := cleanMessage line
    emojis := line.filter isEmojiChar
    contains_error := err
    contains_success := !err && !warn && suc }

/-- Python `s.lower()` for the ASCII level strings compared by the level
filter. -/
def lowerStr (s : String) : String :=
  String.mk (s.toList.map Char.toLower)

/-- The time filter of `_parse_log_file` (lines 136-142): an entry is
dropped exactly when a cutoff is active, the entry has a resolved
timestamp, and that timestamp is strictly before the cutoff.  The cutoff
is carried as its position on the absolute timeline in microseconds. -/
def entryDroppedByCutoff (cutoff : Option Nat) (e : LogEntry) : Bool :=
  match cutoff, e.parsed_timestamp with
  | some c, some t => decide (t.toMicros < c)
  | _, _ => false

/-- The level filter of `_parse_log_file` (lines 145-146). -/
def entryDroppedByLevel (filter_level : String) (e : LogEntry) : Bool :=
  filter_level != "all" && lowerStr e.level != lowerStr filter_level

/-- The `for line_num, line in enumerate(lines, 1)` loop of
`_parse_log_file`: strip each physical line, skip blanks, parse, apply
the time filter then the level filter. -/
def processLines (now : DateTime) (src : String) (filter_level : String)
    (cutoff : Option Nat) : Nat → List (List Char) → List LogEntry
  | _, [] => []
  | i, l :: rest =>
    let line := stripChars l
    if line.isEmpty then processLines now src filter_level cutoff (i + 1) rest
    else
      let e := parseLogLine now line src i
      if entryDroppedByCutoff cutoff e then
        processLines now src filter_level cutoff (i + 1) rest
      else if entryDroppedByLevel filter_level e then
        processLines now src filter_level cutoff (i + 1) rest
      else e :: processLines now src filter_level cutoff (i + 1) rest

/-- Python `if len(l) > n: l = l[-n:]` — the tail-limiting slice used both
per source (line 125) and globally (line 84).  Note `l[-0:]` is the whole
list, so `n = 0` never truncates. -/
def pyTail {α : Type} (n : Nat) (l : List α) : List α :=
  if l.length > n then (if n = 0 then l else l.drop (l.length - n)) else l

/-- The synthetic entry appended when reading a source file raises
(lines 150-157).  The Python dict carries only the keys `source`,
`level`, `message`, `timestamp` and `raw_line`; the remaining fields of
the model take the values that `dict.get` would default to (falsy /
absent). -/
def syntheticReadErrorEntry (now : DateTime) (src filePath emsg : String) :
    LogEntry :=
  { source := src
    line_number := 0
    raw_line := []
    timestamp := (DateTime.isoformat now).toList
    parsed_timestamp := none
    level := "error"
    message := ("Error reading log file " ++ filePath ++ ": " ++ emsg).toList
    emojis := []
    contains_error := false
    contains_success := false }

/-- `_parse_log_file`: a failing read is converted into one synthetic
error entry; otherwise the last `tail_lines` physical lines are parsed
and filtered. -/
def parseLogFile (now : DateTime) (content : Except String (List (List Char)))
    (filePath : String) (src : String) (tail_lines : Nat)
    (filter_level : String) (cutoff : Option Nat) : List LogEntry :=
  match content with
  | .error e => [syntheticReadErrorEntry now src filePath e]
  | .ok lines => processLines now src filter_level cutoff 1 (pyTail tail_lines lines)

/-- Code-point lexicographic string order, the order Python uses to
compare the `timestamp` sort keys (line 81). -/
def clLe : List Char → List Char → Bool
  | [], _ => true
  | _ :: _, [] => false
  | a :: as, b :: bs =>
    if a.toNat < b.toNat then true
    else if b.toNat < a.toNat then false
    else clLe as bs

/-- Stable insertion of an entry before the first existing entry with a
key not smaller than its own. -/
def insertByTs (x : LogEntry) : List LogEntry → List LogEntry
  | [] => [x]
  | y :: ys =>
    if clLe x.timestamp y.timestamp then x :: y :: ys else y :: insertByTs x ys

/-- `all_entries.sort(key=lambda x: x.get("timestamp", ""))`: CPython's
sort is a stable sort by the raw timestamp string; a stable sort by a
total preorder is unique as a function, so this stable insertion sort
computes the same list. -/
def sortByTs : List LogEntry → List LogEntry
  | [] => []
  | x :: xs => insertByTs x (sortByTs xs)

/-- One filesystem snapshot, covering everything `monitor_script_logs`
reads: the `%APPDATA%` value, existence and content of
`ReNumber_Debug.log`, the `os.listdir` result for `C:\RevitAI` (`none`
when the directory is missing and `listdir` raises, `(name, mtime)`
pairs otherwise) and the readable content of each workspace file.
A read result of `Except.error` models an I/O exception. -/
structure FileSystem where
  appdata : String
  renumberExists : Bool
  renumberRead : Except String (List (List Char))
  workspaceList : Option (List (String × Nat))
  tycoonRead : String → Except String (List (List Char))

/-- The request shape of the tool, with the schema defaults. -/
structure MonitorRequest where
  log_type : String := "all"
  tail_lines : Nat := 50
  follow : Bool := false
  filter_level : String := "all"
  since_minutes : Nat := 0
deriving DecidableEq, Repr

/-- The response dictionary, flattened (the `monitoring_info` sub-dict
becomes the last three fields). -/
structure MonitorResult where
  status : String
  message : String := ""
  searched_paths : List String := []
  log_files_monitored : List String := []
  total_entries : Nat := 0
  filter_applied : String := ""
  time_range : String := ""
  entries : List LogEntry := []
  renumber_log_exists : Bool := false
  tycoon_log_exists : Bool := false
  last_updated : String := ""
deriving DecidableEq, Repr

def workspaceDir : String := "C:\\RevitAI"

/-- `os.path.join` on Windows for the simple relative components used
here: insert a backslash unless the head already ends in a separator. -/
def pyJoin (a b : String) : String :=
  if a = "" then b
  else
    match a.toList.getLast? with
    | some c => if c = '\\' || c = '/' || c = ':' then a ++ b else a ++ "\\" ++ b
    | none => b

def tycoonDir (fs : FileSystem) : String := pyJoin fs.appdata "Tycoon"

def renumberLogPath (fs : FileSystem) : String :=
  pyJoin (tycoonDir fs) "ReNumber_Debug.log"

/-- `file.startswith("Tycoon_") and file.endswith(".log")`. -/
def nameMatchesTycoonLog (name : String) : Bool :=
  headMatches ("Tycoon_".toList) name.toList
    && headMatches (".log".toList.reverse) name.toList.reverse

def tycoonCandidates (listing : List (String × Nat)) : List (String × Nat) :=
  listing.filter (fun p => nameMatchesTycoonLog p.1)

/-- Python `max(candidates, key=lambda x: x[1])`: scan left to right,
replacing the running best only on a strictly greater key — on mtime
ties the earliest-listed candidate is kept. -/
def pyMaxByMtime : List (String × Nat) → Option (String × Nat)
  | [] => none
  | x :: xs => some (xs.foldl (fun best y => if best.2 < y.2 then y else best) x)

/-- A resolved source: logical name, resolved path, read result. -/
abbrev ResolvedSource := String × String × Except String (List (List Char))

/-- Lines 41-59 of the source: build the `log_files` dict (insertion
order: `renumber`, then `tycoon`).  A missing workspace directory makes
`os.listdir` raise, which the model reports as `Except.error` — that
exception is only caught by the top-level handler. -/
def resolveSources (fs : FileSystem) (log_type : String) :
    Except String (List ResolvedSource) :=
  let renumberPart : List ResolvedSource :=
    if (log_type == "all" || log_type == "renumber") && fs.renumberExists then
      [("renumber", renumberLogPath fs, fs.renumberRead)]
    else []
  if log_type == "all" || log_type == "tycoon" then
    match fs.workspaceList with
    | none => .error "FileNotFoundError: C:\\RevitAI"
    | some listing =>
      match pyMaxByMtime (tycoonCandidates listing) with
      | none => .ok renumberPart
      | some best =>
        .ok (renumberPart ++ [("tycoon", pyJoin workspaceDir best.1, fs.tycoonRead best.1)])
  else .ok renumberPart

/-- Microsecond position of `datetime.min` (0001-01-01T00:00:00). -/
def minDateTimeMicros : Nat := DateTime.toMicros ⟨1, 1, 1, 0, 0, 0, 0⟩

/-- `cutoff_time = datetime.now() - timedelta(minutes=since_minutes)`
when `since_minutes > 0` (lines 71-74): exact subtraction on the absolute
timeline; going below `datetime.min` raises OverflowError, which only the
top-level handler catches. -/
def computeCutoff (now : DateTime) (since_minutes : Nat) :
    Except String (Option Nat) :=
  if since_minutes = 0 then .ok none
  else
    let delta := since_minutes * 60 * 1000000
    if now.toMicros < minDateTimeMicros + delta then
      .error "OverflowError: date value out of range"
    else .ok (some (now.toMicros - delta))

/-- The per-source collection loop (lines 76-78): call `_parse_log_file`
on each resolved source, in dict order, and concatenate. -/
def collectEntries (now : DateTime) (req : MonitorRequest) (cutoff : Option Nat)
    (sources : List ResolvedSource) : List LogEntry :=
  sources.foldr
    (fun s acc =>
      parseLogFile now s.2.2 s.2.1 s.1 req.tail_lines req.filter_level cutoff ++ acc)
    []

/-- The `except Exception` fallback of `monitor_script_logs`
(lines 101-106). -/
def errorResult (msg : String) : MonitorResult :=
  { status := "error", message := "Error monitoring logs: " ++ msg }

/-- `monitor_script_logs`, over an explicit filesystem snapshot and an
explicit current time. -/
def monitor_script_logs (fs : FileSystem) (now : DateTime)
    (req : MonitorRequest) : MonitorResult :=
  match resolveSources fs req.log_type with
  | .error e => errorResult e
  | .ok [] =>
    { status := "no_logs_found"
      message := "No log files found. Make sure Tycoon is running and scripts have been executed."
      searched_paths := [tycoonDir fs, workspaceDir] }
  | .ok (s0 :: srest) =>
    match computeCutoff now req.since_minutes with
    | .error e => errorResult e
    | .ok cutoff =>
      let sources := s0 :: srest
      let final := pyTail req.tail_lines (sortByTs (collectEntries now req cutoff sources))
      { status := "success"
        log_files_monitored := sources.map (fun s => s.1)
        total_entries := final.length
        filter_applied := req.filter_level
        time_range :=
          if req.since_minutes > 0 then
            "Last " ++ toString req.since_minutes ++ " minutes"
          else "All available"
        entries := final
        renumber_log_exists := sources.any (fun s => s.1 == "renumber")
        tycoon_log_exists := sources.any (fun s => s.1 == "tycoon")
        last_updated := DateTime.isoformat now }

/-! ### Helper lemmas -/

theorem pyTail_length_le {α : Type} (n : Nat) (l : List α) (hn : 1 ≤ n) :
    (pyTail n l).length ≤ n := by
  unfold pyTail
  split
  · split
    · omega
    · simp only [List.length_drop]
      omega
  · omega

theorem mem_pyTail {α : Type} {n : Nat} {l : List α} {x : α}
    (h : x ∈ pyTail n l) : x ∈ l := by
  unfold pyTail at h
  split at h
  · split at h
    · exact h
    · exact List.drop_subset _ _ h
  · exact h

theorem pyTail_pairwise {α : Type} {R : α → α → Prop} {n : Nat} {l : List α}
    (h : l.Pairwise R) : (pyTail n l).Pairwise R := by
  unfold pyTail
  split
  · split
    · exact h
    · exact h.sublist (List.drop_sublist _ _)
  · exact h

theorem clLe_total (a : List Char) : ∀ b, clLe a b = true ∨ clLe b a = true := by
  induction a with
  | nil => intro b; exact Or.inl rfl
  | cons x xs ih =>
    intro b
    cases b with
    | nil => exact Or.inr rfl
    | cons y ys =>
      simp only [clLe]
      rcases Nat.lt_trichotomy x.toNat y.toNat with h | h | h
      · left
        simp [h]
      · rcases ih ys with h2 | h2
        · left
          simp [h, h2]
        · right
          simp [h, h2]
      · right
        simp [h, Nat.lt_asymm h]

theorem clLe_trans (a : List Char) :
    ∀ b c, clLe a b = true → clLe b c = true → clLe a c = true := by
  induction a with
  | nil => intro b c h1 h2; rfl
  | cons x xs ih =>
    intro b c h1 h2
    cases b with
    | nil => exact absurd h1 (by simp [clLe])
    | cons y ys =>
      cases c with
      | nil => exact absurd h2 (by simp [clLe])
      | cons z zs =>
        simp only [clLe] at h1 h2 ⊢
        split at h1
        · rename_i hxy
          split at h2
          · rename_i hyz
            simp [Nat.lt_trans hxy hyz]
          · split at h2
            · exact absurd h2 (by simp)
            · rename_i hyz hzy
              have hyz2 : y.toNat = z.toNat := by omega
              rw [hyz2] at hxy
              simp [hxy]
        · split at h1
          · exact absurd h1 (by simp)
          · rename_i hxy hyx
            have hxy2 : x.toNat = y.toNat := by omega
            split at h2
            · rename_i hyz
              rw [← hxy2] at hyz
              simp [hyz]
            · split at h2
              · exact absurd h2 (by simp)
              · rename_i hyz hzy
                have hyz2 : y.toNat = z.toNat := by omega
                have g1 : ¬ x.toNat < z.toNat := by omega
                have g2 : ¬ z.toNat < x.toNat := by omega
                simp only [if_neg g1, if_neg g2]
                exact ih ys zs h1 h2

/-- The sort-key order on entries: code-point order of the raw extracted
timestamp strings. -/
def tsKeyLe (a b : LogEntry) : Prop := clLe a.timestamp b.timestamp = true

theorem mem_insertByTs {x z : LogEntry} {l : List LogEntry}
    (h : z ∈ insertByTs x l) : z = x ∨ z ∈ l := by
  induction l with
  | nil =>
    simp only [insertByTs, List.mem_singleton] at h
    exact Or.inl h
  | cons y ys ih =>
    simp only [insertByTs] at h
    split at h
    · rcases List.mem_cons.mp h with h | h
      · exact Or.inl h
      · exact Or.inr h
    · rcases List.mem_cons.mp h with h | h
      · exact Or.inr (List.mem_cons.mpr (Or.inl h))
      · rcases ih h with h | h
        · exact Or.inl h
        · exact Or.inr (List.mem_cons.mpr (Or.inr h))

theorem mem_sortByTs {z : LogEntry} {l : List LogEntry}
    (h : z ∈ sortByTs l) : z ∈ l := by
  induction l with
  | nil => simp [sortByTs] at h
  | cons x xs ih =>
    simp only [sortByTs] at h
    rcases mem_insertByTs h with h | h
    · simp [h]
    · simp [ih h]

theorem insertByTs_pairwise {x : LogEntry} {l : List LogEntry}
    (hl : l.Pairwise tsKeyLe) : (insertByTs x l).Pairwise tsKeyLe := by
  induction l with
  | nil => simp [insertByTs]
  | cons y ys ih =>
    rcases List.pairwise_cons.mp hl with ⟨hy, hys⟩
    simp only [insertByTs]
    split
    · rename_i hxy
      refine List.pairwise_cons.mpr ⟨?_, hl⟩
      intro z hz
      rcases List.mem_cons.mp hz with rfl | hz
      · exact hxy
      · exact clLe_trans _ _ _ hxy (hy z hz)
    · rename_i hxy
      refine List.pairwise_cons.mpr ⟨?_, ih hys⟩
      intro z hz
      rcases mem_insertByTs hz with rfl | hz
      · rcases clLe_total z.timestamp y.timestamp with h | h
        · exact absurd h hxy
        · exact h
      · exact hy z hz

theorem sortByTs_pairwise (l : List LogEntry) : (sortByTs l).Pairwise tsKeyLe := by
  induction l with
  | nil => simp [sortByTs]
  | cons x xs ih =>
    simp only [sortByTs]
    exact insertByTs_pairwise ih

theorem processLines_mem {now : DateTime} {src filter_level : String}
    {cutoff : Option Nat} :
    ∀ {i : Nat} {lines : List (List Char)} {e : LogEntry},
      e ∈ processLines now src filter_level cutoff i lines →
      entryDroppedByCutoff cutoff e = false ∧
        entryDroppedByLevel filter_level e = false ∧
        e.raw_line.isEmpty = false := by
  intro i lines
  induction lines generalizing i with
  | nil => intro e h; simp [processLines] at h
  | cons l rest ih =>
    intro e h
    simp only [processLines] at h
    split at h
    · exact ih h
    · split at h
      · exact ih h
      · split at h
        · exact ih h
        · rcases List.mem_cons.mp h with rfl | h
          · rename_i hblank hcut hlvl
            rw [Bool.not_eq_true] at hblank hcut hlvl
            exact ⟨hcut, hlvl, hblank⟩
          · exact ih h

theorem parseLogFile_mem {now : DateTime}
    {content : Except String (List (List Char))}
    {filePath src : String} {tail_lines : Nat} {filter_level : String}
    {cutoff : Option Nat} {e : LogEntry}
    (h : e ∈ parseLogFile now content filePath src tail_lines filter_level cutoff) :
    (e.parsed_timestamp = none ∧ e.level = "error" ∧ e.raw_line = []) ∨
    (entryDroppedByCutoff cutoff e = false ∧
      entryDroppedByLevel filter_level e = false ∧ e.raw_line.isEmpty = false) := by
  cases content with
  | error msg =>
    simp only [parseLogFile, List.mem_singleton] at h
    subst h
    exact Or.inl ⟨rfl, rfl, rfl⟩
  | ok lines =>
    simp only [parseLogFile] at h
    exact Or.inr (processLines_mem h)

theorem collectEntries_mem {now : DateTime} {req : MonitorRequest}
    {cutoff : Option Nat} {e : LogEntry} :
    ∀ {sources : List ResolvedSource},
      e ∈ collectEntries now req cutoff sources →
      ∃ s, s ∈ sources ∧
        e ∈ parseLogFile now s.2.2 s.2.1 s.1 req.tail_lines req.filter_level cutoff := by
  intro sources
  induction sources with
  | nil => intro h; simp [collectEntries] at h
  | cons s ss ih =>
    intro h
    simp only [collectEntries, List.foldr_cons] at h
    rcases List.mem_append.mp h with h | h
    · exact ⟨s, List.mem_cons_self _ _, h⟩
    · rcases ih h with ⟨t, ht, he⟩
      exact ⟨t, List.mem_cons.mpr (Or.inr ht), he⟩

/-- Case analysis on the result of `monitor_script_logs`: either the
entry list is empty (`error` and `no_logs_found` outcomes), or resolution
and cutoff computation succeeded and the entry list is the truncated sort
of the per-source collections. -/
theorem monitor_entries_shape (fs : FileSystem) (now : DateTime)
    (req : MonitorRequest) :
    (monitor_script_logs fs now req).entries = [] ∨
    ∃ sources cutoff,
      resolveSources fs req.log_type = Except.ok sources ∧
      computeCutoff now req.since_minutes = Except.ok cutoff ∧
      (monitor_script_logs fs now req).entries
        = pyTail req.tail_lines (sortByTs (collectEntries now req cutoff sources)) := by
  unfold monitor_script_logs
  cases hres : resolveSources fs req.log_type with
  | error e => exact Or.inl rfl
  | ok ls =>
    cases ls with
    | nil => exact Or.inl rfl
    | cons s0 srest =>
      cases hcut : computeCutoff now req.since_minutes with
      | error e => exact Or.inl rfl
      | ok cutoff => exact Or.inr ⟨s0 :: srest, cutoff, rfl, rfl, rfl⟩

/-- The result of `monitor_script_logs` depends on the filesystem only
through source resolution and the searched-path strings. -/
theorem monitor_congr (fs fs2 : FileSystem) (now : DateTime)
    (req : MonitorRequest)
    (h1 : resolveSources fs req.log_type = resolveSources fs2 req.log_type)
    (h2 : tycoonDir fs = tycoonDir fs2) :
    monitor_script_logs fs now req = monitor_script_logs fs2 now req := by
  unfold monitor_script_logs
  rw [h1, h2]

theorem pyMaxFold_mem (xs : List (String × Nat)) (a : String × Nat) :
    xs.foldl (fun best y => if best.2 < y.2 then y else best) a = a
      ∨ xs.foldl (fun best y => if best.2 < y.2 then y else best) a ∈ xs := by
  induction xs generalizing a with
  | nil => exact Or.inl rfl
  | cons y ys ih =>
    simp only [List.foldl_cons]
    rcases ih (if a.2 < y.2 then y else a) with h | h
    · rw [h]
      split
      · exact Or.inr (List.mem_cons_self _ _)
      · exact Or.inl rfl
    · exact Or.inr (List.mem_cons.mpr (Or.inr h))

theorem pyMaxFold_bound (xs : List (String × Nat)) (a : String × Nat) :
    a.2 ≤ (xs.foldl (fun best y => if best.2 < y.2 then y else best) a).2 ∧
    ∀ c ∈ xs, c.2 ≤ (xs.foldl (fun best y => if best.2 < y.2 then y else best) a).2 := by
  induction xs generalizing a with
  | nil =>
    refine ⟨Nat.le_refl _, ?_⟩
    intro c hc
    cases hc
  | cons y ys ih =>
    simp only [List.foldl_cons]
    rcases ih (if a.2 < y.2 then y else a) with ⟨h1, h2⟩
    constructor
    · refine Nat.le_trans ?_ h1
      split <;> omega
    · intro c hc
      rcases List.mem_cons.mp hc with rfl | hc
      · refine Nat.le_trans ?_ h1
        split <;> omega
      · exact h2 c hc

theorem pyMaxByMtime_spec {l : List (String × Nat)} {b : String × Nat}
    (h : pyMaxByMtime l = some b) : b ∈ l ∧ ∀ c ∈ l, c.2 ≤ b.2 := by
  cases l with
  | nil => cases h
  | cons x xs =>
    simp only [pyMaxByMtime, Option.some_inj] at h
    subst h
    constructor
    · rcases pyMaxFold_mem xs x with h | h
      · rw [h]
        exact List.mem_cons_self _ _
      · exact List.mem_cons.mpr (Or.inr h)
    · intro c hc
      rcases List.mem_cons.mp hc with rfl | hc
      · exact (pyMaxFold_bound xs c).1
      · exact (pyMaxFold_bound xs x).2 c hc

/-! ### Claim C1 -/

/-- Claim C1: for every request (the tool's input schema requires
`tail_lines ≥ 1`) and every filesystem snapshot, the returned `entries`
list has length at most `tail_lines` — the global tail limit (lines
84-85 of the source) bounds the merged result. -/
theorem monitor_entries_length_le_tail (fs : FileSystem) (now : DateTime)
    (req : MonitorRequest) (h : 1 ≤ req.tail_lines) :
    (monitor_script_logs fs now req).entries.length ≤ req.tail_lines := by
  rcases monitor_entries_shape fs now req with h0 | ⟨sources, cutoff, _, _, hE⟩
  · rw [h0]
    exact Nat.zero_le _
  · rw [hE]
    exact pyTail_length_le _ _ h

def fsW1 : FileSystem :=
  { appdata := "C:\\Users\\U\\AppData\\Roaming"
    renumberExists := true
    renumberRead := .ok
      ["[2025-07-13 21:45:32] alpha".toList, "[2025-07-13 21:45:33] beta".toList]
    workspaceList := some []
    tycoonRead := fun _ => .error "unused" }

def nowW1 : DateTime := ⟨2025, 7, 13, 22, 0, 0, 0⟩

def reqW1 : MonitorRequest := { log_type := "renumber", tail_lines := 1 }

/-- Claim C1 witness: concrete instantiation of the length bound (two
parsed lines, tail limit 1). -/
theorem monitor_entries_length_le_tail_witness :
    (monitor_script_logs fsW1 nowW1 reqW1).entries.length ≤ 1 :=
  monitor_entries_length_le_tail fsW1 nowW1 reqW1 (by decide)

/-! ### Claim C2 -/

def fsC2 : FileSystem :=
  { appdata := "C:\\Users\\U\\AppData\\Roaming"
    renumberExists := true
    renumberRead := .ok
      ["[2099-01-01 00:00:00] boom".toList, "[21:45:32] later".toList]
    workspaceList := some []
    tycoonRead := fun _ => .error "unused" }

def nowC2 : DateTime := ⟨2026, 10, 12, 8, 0, 0, 0⟩

def reqC2 : MonitorRequest := { log_type := "renumber" }

def dtC2a : DateTime := ⟨2099, 1, 1, 0, 0, 0, 0⟩

def dtC2b : DateTime := ⟨2026, 10, 12, 21, 45, 32, 0⟩

/-- Claim C2 counterexample: the merge sorts by the raw extracted
timestamp string, not the parsed timestamp.  With one full-date line
(`[2099-01-01 00:00:00]`, parsed to year 2099) and one time-only line
(`[21:45:32]`, parsed to the current date 2026-10-12), the string
`2099-...` sorts before `21:...`, so the earlier entry of the result has
the strictly larger resolved timestamp — both entries have resolved
timestamps, so the claimed non-decreasing order is violated. -/
theorem monitor_parsed_order_cex :
    ((monitor_script_logs fsC2 nowC2 reqC2).entries.map
        (fun e => e.parsed_timestamp)) = [some dtC2a, some dtC2b] ∧
    dtC2b.toMicros < dtC2a.toMicros := by
  constructor
  · rfl
  · decide

/-- Claim C2 amended: the merged `entries` list is non-decreasing in the
raw extracted timestamp string (the sort key actually used, line 81 of
the source; empty for entries with no timestamp match), not in the parsed
timestamp; parsed timestamps are only non-decreasing when the raw strings
compare consistently (e.g. both full-date). -/
theorem monitor_entries_sorted_by_raw_timestamp (fs : FileSystem)
    (now : DateTime) (req : MonitorRequest) :
    ((monitor_script_logs fs now req).entries).Pairwise tsKeyLe := by
  rcases monitor_entries_shape fs now req with h0 | ⟨sources, cutoff, _, _, hE⟩
  · rw [h0]
    exact List.Pairwise.nil
  · rw [hE]
    exact pyTail_pairwise (sortByTs_pairwise _)

/-! ### Claim C3 -/

def fsC3 : FileSystem :=
  { appdata := "C:\\Users\\U\\AppData\\Roaming"
    renumberExists := false
    renumberRead := .ok []
    workspaceList := none
    tycoonRead := fun _ => .error "unused" }

def nowC3 : DateTime := ⟨2025, 7, 13, 12, 0, 0, 0⟩

/-- Claim C3 counterexample: when the workspace directory `C:\RevitAI`
itself is absent and the tycoon source is requested (here via the default
`log_type="all"`), `os.listdir` raises and the top-level handler returns
status `error`, not `no_logs_found` — refuting the claim's "including
when the configured directories themselves are absent" part. -/
theorem monitor_missing_dir_error_cex :
    (monitor_script_logs fsC3 nowC3 {}).status = "error" ∧
    (monitor_script_logs fsC3 nowC3 {}).status ≠ "no_logs_found" ∧
    (monitor_script_logs fsC3 nowC3 {}).entries = [] := by
  refine ⟨rfl, ?_, rfl⟩
  decide

/-- Claim C3 amended: whenever source resolution succeeds and yields no
sources (the configured files are absent from existing directories, or no
requested selector resolves), the result has status `no_logs_found` with
an empty entry list and the searched paths — but when the workspace
directory itself is missing and `log_type` requests the tycoon source,
the `os.listdir` failure instead produces status `error`. -/
theorem monitor_no_sources_no_logs_found (fs : FileSystem) (now : DateTime)
    (req : MonitorRequest)
    (h : resolveSources fs req.log_type = Except.ok []) :
    (monitor_script_logs fs now req).status = "no_logs_found" ∧
    (monitor_script_logs fs now req).entries = [] ∧
    (monitor_script_logs fs now req).searched_paths
      = [tycoonDir fs, workspaceDir] := by
  unfold monitor_script_logs
  rw [h]
  exact ⟨rfl, rfl, rfl⟩

def fsC3w : FileSystem :=
  { appdata := "C:\\Users\\U\\AppData\\Roaming"
    renumberExists := false
    renumberRead := .ok []
    workspaceList := some [("notes.txt", 3), ("Tycoon_partial", 9)]
    tycoonRead := fun _ => .error "unused" }

/-- Claim C3 witness: both directories exist but hold no matching log
file, so the call reports `no_logs_found` with the searched paths. -/
theorem monitor_no_sources_no_logs_found_witness :
    (monitor_script_logs fsC3w nowC3 {}).status = "no_logs_found" ∧
    (monitor_script_logs fsC3w nowC3 {}).entries = [] ∧
    (monitor_script_logs fsC3w nowC3 {}).searched_paths
      = [tycoonDir fsC3w, workspaceDir] :=
  monitor_no_sources_no_logs_found fsC3w nowC3 {} (by rfl)

/-! ### Claim C4 -/

def fsC4 : FileSystem :=
  { appdata := "C:\\Users\\U\\AppData\\Roaming"
    renumberExists := true
    renumberRead := .error "disk gone"
    workspaceList := some []
    tycoonRead := fun _ => .error "unused" }

def nowC4 : DateTime := ⟨2025, 7, 13, 12, 0, 0, 0⟩

def reqC4 : MonitorRequest := { log_type := "renumber", filter_level := "warning" }

/-- Claim C4 counterexample: the synthetic entry produced for a source
read failure is appended without passing the level filter (lines 150-157
of the source), so a request with `filter_level="warning"` can return an
entry classified `error` — refuting the claim's "including any synthetic
entries" part. -/
theorem monitor_filter_level_cex :
    ((monitor_script_logs fsC4 nowC4 reqC4).entries.map (fun e => e.level))
      = ["error"] ∧
    reqC4.filter_level = "warning" ∧
    lowerStr "error" ≠ lowerStr "warning" := by
  refine ⟨rfl, rfl, ?_⟩
  decide

/-- Claim C4 amended: with `filter_level ≠ "all"`, every returned entry
either has a classified level equal (case-insensitively) to
`filter_level`, or is a synthetic read-failure entry — recognizable by
its empty raw line — whose level is always `error` and which bypasses the
filter. -/
theorem monitor_filter_level_amended (fs : FileSystem) (now : DateTime)
    (req : MonitorRequest) (e : LogEntry)
    (he : e ∈ (monitor_script_logs fs now req).entries)
    (hf : req.filter_level ≠ "all") :
    lowerStr e.level = lowerStr req.filter_level ∨
    (e.raw_line = [] ∧ e.level = "error") := by
  rcases monitor_entries_shape fs now req with h0 | ⟨sources, cutoff, _, _, hE⟩
  · rw [h0] at he
    cases he
  · rw [hE] at he
    rcases collectEntries_mem (mem_sortByTs (mem_pyTail he)) with ⟨s, _, hp⟩
    rcases parseLogFile_mem hp with ⟨_, hl, hr⟩ | ⟨_, hlvl, _⟩
    · exact Or.inr ⟨hr, hl⟩
    · left
      unfold entryDroppedByLevel at hlvl
      have hne : (req.filter_level != "all") = true := by
        simpa [bne_iff_ne] using hf
      rw [hne, Bool.true_and] at hlvl
      simpa [bne, beq_iff_eq] using hlvl

def fsC4w : FileSystem :=
  { appdata := "C:\\Users\\U\\AppData\\Roaming"
    renumberExists := true
    renumberRead := .ok ["Warning: battery low".toList]
    workspaceList := some []
    tycoonRead := fun _ => .error "unused" }

def eC4w : LogEntry := parseLogLine nowC4 ("Warning: battery low".toList) "renumber" 1

/-- Claim C4 witness: a parsed entry returned under
`filter_level="warning"` does satisfy the case-insensitive level
equation. -/
theorem monitor_filter_level_amended_witness :
    lowerStr eC4w.level = lowerStr reqC4.filter_level ∨
    (eC4w.raw_line = [] ∧ eC4w.level = "error") :=
  monitor_filter_level_amended fsC4w nowC4 reqC4 eC4w (by decide) (by decide)

/-! ### Claim C5 -/

/-- Claim C5: when `since_minutes = N > 0` and the call returns entries,
every returned entry either has no resolved timestamp (such entries are
retained despite the window) or its resolved timestamp is at least
`now − N` minutes on the absolute timeline (in microseconds; the first
conjunct records that the cutoff subtraction did not underflow). -/
theorem monitor_since_window (fs : FileSystem) (now : DateTime)
    (req : MonitorRequest) (e : LogEntry) (t : DateTime)
    (hpos : 0 < req.since_minutes)
    (he : e ∈ (monitor_script_logs fs now req).entries)
    (ht : e.parsed_timestamp = some t) :
    minDateTimeMicros + req.since_minutes * 60 * 1000000 ≤ now.toMicros ∧
    now.toMicros - req.since_minutes * 60 * 1000000 ≤ t.toMicros := by
  rcases monitor_entries_shape fs now req with h0 | ⟨sources, cutoff, _, hcut, hE⟩
  · rw [h0] at he
    cases he
  · have hz : ¬ req.since_minutes = 0 := by omega
    rw [computeCutoff, if_neg hz] at hcut
    dsimp only at hcut
    split at hcut
    · cases hcut
    · rename_i hguard
      injection hcut with hcut
      refine ⟨by omega, ?_⟩
      rw [hE] at he
      rcases collectEntries_mem (mem_sortByTs (mem_pyTail he)) with ⟨s, _, hp⟩
      rcases parseLogFile_mem hp with ⟨hnone, _, _⟩ | ⟨hcu, _, _⟩
      · rw [ht] at hnone
        cases hnone
      · unfold entryDroppedByCutoff at hcu
        rw [ht, ← hcut] at hcu
        simp only [decide_eq_false_iff_not, Nat.not_lt] at hcu
        exact hcu

def fsC5w : FileSystem :=
  { appdata := "C:\\Users\\U\\AppData\\Roaming"
    renumberExists := true
    renumberRead := .ok ["[2025-07-13 21:45:32] keep this".toList]
    workspaceList := some []
    tycoonRead := fun _ => .error "unused" }

def nowC5w : DateTime := ⟨2025, 7, 13, 21, 50, 0, 0⟩

def reqC5w : MonitorRequest := { log_type := "renumber", since_minutes := 10 }

def eC5w : LogEntry :=
  parseLogLine nowC5w ("[2025-07-13 21:45:32] keep this".toList) "renumber" 1

def dtC5w : DateTime := ⟨2025, 7, 13, 21, 45, 32, 0⟩

/-- Claim C5 witness: a 10-minute window at 21:50 keeps the entry
timestamped 21:45:32 and places it above the cutoff. -/
theorem monitor_since_window_witness :
    minDateTimeMicros + 10 * 60 * 1000000 ≤ nowC5w.toMicros ∧
    nowC5w.toMicros - 10 * 60 * 1000000 ≤ dtC5w.toMicros :=
  monitor_since_window fsC5w nowC5w reqC5w eC5w dtC5w (by decide) (by decide) (by rfl)

/-! ### Claim C6 -/

/-- Claim C6: severity classification scans the full raw line for marker
tokens in priority order error, warning, success, info, the first match
winning with default `info`; `contains_error` holds iff the error branch
matched and `contains_success` iff the success branch matched (so a line
with both an error and a success marker is classified `error` with
`contains_success = false`, as the closing concrete conjuncts show). -/
theorem parseLogLine_classification (now : DateTime) (line : List Char)
    (src : String) (i : Nat) :
    ((parseLogLine now line src i).level = "error" ↔
      hasAnyMarker errorMarkers line = true) ∧
    ((parseLogLine now line src i).level = "warning" ↔
      (hasAnyMarker errorMarkers line = false ∧
        hasAnyMarker warningMarkers line = true)) ∧
    ((parseLogLine now line src i).level = "success" ↔
      (hasAnyMarker errorMarkers line = false ∧
        hasAnyMarker warningMarkers line = false ∧
        hasAnyMarker successMarkers line = true)) ∧
    ((parseLogLine now line src i).level = "info" ↔
      (hasAnyMarker errorMarkers line = false ∧
        hasAnyMarker warningMarkers line = false ∧
        hasAnyMarker successMarkers line = false)) ∧
    (parseLogLine now line src i).contains_error
      = hasAnyMarker errorMarkers line ∧
    (parseLogLine now line src i).contains_success
      = (!(hasAnyMarker errorMarkers line)
          && !(hasAnyMarker warningMarkers line)
          && hasAnyMarker successMarkers line) ∧
    (parseLogLine now ("ERROR while SUCCESS reported".toList) src i).level
      = "error" ∧
    (parseLogLine now ("ERROR while SUCCESS reported".toList) src i).contains_success
      = false := by
  refine ⟨?_, ?_, ?_, ?_, ?_, ?_, rfl, rfl⟩ <;>
    cases herr : hasAnyMarker errorMarkers line <;>
      cases hwarn : hasAnyMarker warningMarkers line <;>
        cases hsuc : hasAnyMarker successMarkers line <;>
          simp [parseLogLine, herr, hwarn, hsuc]

/-! ### Claim C7 -/

def fsC7 : FileSystem :=
  { appdata := "C:\\Users\\U\\AppData\\Roaming"
    renumberExists := true
    renumberRead := .ok []
    workspaceList := some []
    tycoonRead := fun _ => .error "unused" }

def nowC7 : DateTime := ⟨2025, 7, 13, 12, 0, 0, 0⟩

def reqC7 : MonitorRequest := { log_type := "renumber" }

/-- Claim C7 counterexample: a resolved source that contributes no entry
(here an existing but empty `ReNumber_Debug.log`) is still listed in
`log_files_monitored` — the field holds `list(log_files.keys())`, the
resolved sources, not the contributing ones. -/
theorem monitor_log_files_monitored_cex :
    (monitor_script_logs fsC7 nowC7 reqC7).status = "success" ∧
    (monitor_script_logs fsC7 nowC7 reqC7).log_files_monitored = ["renumber"] ∧
    (monitor_script_logs fsC7 nowC7 reqC7).entries = [] :=
  ⟨rfl, rfl, rfl⟩

/-- Claim C7 amended: on a successful call, `log_files_monitored`
contains exactly the names of all resolved sources (those whose log file
was found), whether or not they contributed entries to the returned
list. -/
theorem monitor_log_files_monitored_all_resolved (fs : FileSystem)
    (now : DateTime) (req : MonitorRequest) (sources : List ResolvedSource)
    (cutoff : Option Nat)
    (hres : resolveSources fs req.log_type = Except.ok sources)
    (hne : sources ≠ [])
    (hcut : computeCutoff now req.since_minutes = Except.ok cutoff) :
    (monitor_script_logs fs now req).log_files_monitored
      = sources.map (fun s => s.1) := by
  cases sources with
  | nil => exact absurd rfl hne
  | cons s0 ss =>
    unfold monitor_script_logs
    rw [hres, hcut]

/-- Claim C7 witness: the amended statement at the counterexample
snapshot — the non-contributing resolved source is listed. -/
theorem monitor_log_files_monitored_all_resolved_witness :
    (monitor_script_logs fsC7 nowC7 reqC7).log_files_monitored
      = [("renumber", renumberLogPath fsC7, fsC7.renumberRead)].map (fun s => s.1) :=
  monitor_log_files_monitored_all_resolved fsC7 nowC7 reqC7
    [("renumber", renumberLogPath fsC7, fsC7.renumberRead)] none
    (by rfl) (List.cons_ne_nil _ _) (by rfl)

/-! ### Claim C8 -/

theorem resolveSources_with_tycoon (fs : FileSystem) (log_type : String)
    (listing : List (String × Nat)) (best : String × Nat)
    (hlt : log_type = "tycoon" ∨ log_type = "all")
    (hw : fs.workspaceList = some listing)
    (hbest : pyMaxByMtime (tycoonCandidates listing) = some best) :
    resolveSources fs log_type
      = Except.ok
          ((if log_type == "all" && fs.renumberExists then
              [("renumber", renumberLogPath fs, fs.renumberRead)]
            else [])
            ++ [("tycoon", pyJoin workspaceDir best.1, fs.tycoonRead best.1)]) := by
  rcases hlt with rfl | rfl
  · simp only [resolveSources, hw, hbest]
    rfl
  · simp only [resolveSources, hw, hbest]
    cases hre : fs.renumberExists <;> rfl

/-- Claim C8: for `log_type = "tycoon"` or `log_type = "all"`, when
candidate `Tycoon_*.log` files exist in the workspace listing, resolution
selects as the tycoon source exactly one file with the greatest
modification time (Python's `max` keeps the earliest-listed candidate on
ties, a deterministic function of the snapshot), and the call reads no
other candidate: any snapshot agreeing on the listing, the appdata value,
the renumber source and the selected file's content — but arbitrary on
every other candidate — produces an identical result. -/
theorem monitor_tycoon_latest_selected (fs : FileSystem) (now : DateTime)
    (req : MonitorRequest) (listing : List (String × Nat)) (best : String × Nat)
    (hlt : req.log_type = "tycoon" ∨ req.log_type = "all")
    (hw : fs.workspaceList = some listing)
    (hbest : pyMaxByMtime (tycoonCandidates listing) = some best) :
    resolveSources fs req.log_type
      = Except.ok
          ((if req.log_type == "all" && fs.renumberExists then
              [("renumber", renumberLogPath fs, fs.renumberRead)]
            else [])
            ++ [("tycoon", pyJoin workspaceDir best.1, fs.tycoonRead best.1)]) ∧
    best ∈ tycoonCandidates listing ∧
    (∀ c ∈ tycoonCandidates listing, c.2 ≤ best.2) ∧
    (∀ fs2 : FileSystem,
      fs2.appdata = fs.appdata →
      fs2.renumberExists = fs.renumberExists →
      fs2.renumberRead = fs.renumberRead →
      fs2.workspaceList = fs.workspaceList →
      fs2.tycoonRead best.1 = fs.tycoonRead best.1 →
      monitor_script_logs fs2 now req = monitor_script_logs fs now req) := by
  rcases pyMaxByMtime_spec hbest with ⟨hmem, hbd⟩
  refine ⟨resolveSources_with_tycoon fs req.log_type listing best hlt hw hbest,
    hmem, hbd, ?_⟩
  intro fs2 happ hre hrr hwl htr
  have hpath : renumberLogPath fs2 = renumberLogPath fs := by
    unfold renumberLogPath tycoonDir
    rw [happ]
  apply monitor_congr
  · calc resolveSources fs2 req.log_type
        = Except.ok
            ((if req.log_type == "all" && fs2.renumberExists then
                [("renumber", renumberLogPath fs2, fs2.renumberRead)]
              else [])
              ++ [("tycoon", pyJoin workspaceDir best.1, fs2.tycoonRead best.1)]) :=
          resolveSources_with_tycoon fs2 req.log_type listing best hlt
            (hwl.trans hw) hbest
      _ = Except.ok
            ((if req.log_type == "all" && fs.renumberExists then
                [("renumber", renumberLogPath fs, fs.renumberRead)]
              else [])
              ++ [("tycoon", pyJoin workspaceDir best.1, fs.tycoonRead best.1)]) := by
          rw [htr, hre, hrr, hpath]
      _ = resolveSources fs req.log_type :=
          (resolveSources_with_tycoon fs req.log_type listing best hlt hw hbest).symm
  · unfold tycoonDir
    rw [happ]

def listingC8 : List (String × Nat) :=
  [("Tycoon_a.log", 5), ("other.txt", 99), ("Tycoon_b.log", 7), ("Tycoon_c.log", 6)]

def fsC8 : FileSystem :=
  { appdata := "C:\\Users\\U\\AppData\\Roaming"
    renumberExists := false
    renumberRead := .ok []
    workspaceList := some listingC8
    tycoonRead := fun n =>
      if n = "Tycoon_b.log" then .ok ["hello from b".toList] else .error "not read" }

def fsC8b : FileSystem :=
  { fsC8 with
    tycoonRead := fun n =>
      if n = "Tycoon_b.log" then .ok ["hello from b".toList]
      else .ok ["different content".toList] }

def nowC8 : DateTime := ⟨2025, 7, 13, 12, 0, 0, 0⟩

def reqC8 : MonitorRequest := { log_type := "tycoon" }

def reqC8all : MonitorRequest := {}

/-- Claim C8 witness: among three `Tycoon_*.log` candidates with
modification times 5, 7 and 6, the one with time 7 is selected; changing
the content of every other candidate leaves the result unchanged, both
for `log_type="tycoon"` and for `log_type="all"` (the default). -/
theorem monitor_tycoon_latest_selected_witness :
    resolveSources fsC8 reqC8.log_type
      = Except.ok [("tycoon", pyJoin workspaceDir "Tycoon_b.log",
          fsC8.tycoonRead "Tycoon_b.log")] ∧
    ("Tycoon_b.log", 7) ∈ tycoonCandidates listingC8 ∧
    (∀ c ∈ tycoonCandidates listingC8, c.2 ≤ 7) ∧
    monitor_script_logs fsC8b nowC8 reqC8 = monitor_script_logs fsC8 nowC8 reqC8 ∧
    monitor_script_logs fsC8b nowC8 reqC8all = monitor_script_logs fsC8 nowC8 reqC8all := by
  have h1 := monitor_tycoon_latest_selected fsC8 nowC8 reqC8 listingC8
    ("Tycoon_b.log", 7) (Or.inl rfl) rfl (by rfl)
  have h2 := monitor_tycoon_latest_selected fsC8 nowC8 reqC8all listingC8
    ("Tycoon_b.log", 7) (Or.inr rfl) rfl (by rfl)
  exact ⟨h1.1, h1.2.1, h1.2.2.1, h1.2.2.2 fsC8b rfl rfl rfl rfl (by rfl),
    h2.2.2.2 fsC8b rfl rfl rfl rfl (by rfl)⟩

/-! ### Claim C9 -/

/-- Claim C9: the call is deterministic and stateless — in this pure
embedding the result is a function of the request fields, the filesystem
snapshot and the current time alone, so two calls whose request fields
all agree, against the same snapshot and time, return identical results
(in particular identical `entries` lists). -/
theorem monitor_deterministic (fs : FileSystem) (now : DateTime)
    (r1 r2 : MonitorRequest)
    (h1 : r1.log_type = r2.log_type) (h2 : r1.tail_lines = r2.tail_lines)
    (h3 : r1.follow = r2.follow) (h4 : r1.filter_level = r2.filter_level)
    (h5 : r1.since_minutes = r2.since_minutes) :
    monitor_script_logs fs now r1 = monitor_script_logs fs now r2 ∧
    (monitor_script_logs fs now r1).entries
      = (monitor_script_logs fs now r2).entries := by
  have h : r1 = r2 := by
    cases r1
    cases r2
    simp_all
  rw [h]
  exact ⟨rfl, rfl⟩

def fsC9 : FileSystem :=
  { appdata := "C:\\Users\\U\\AppData\\Roaming"
    renumberExists := true
    renumberRead := .ok ["[ERROR] exploded".toList]
    workspaceList := some []
    tycoonRead := fun _ => .error "unused" }

def nowC9 : DateTime := ⟨2025, 7, 13, 12, 0, 0, 0⟩

/-- Claim C9 witness: two syntactically distinct but field-identical
requests give the same result. -/
theorem monitor_deterministic_witness :
    monitor_script_logs fsC9 nowC9 { log_type := "renumber", tail_lines := 50 }
      = monitor_script_logs fsC9 nowC9 { log_type := "renumber" } :=
  (monitor_deterministic fsC9 nowC9 _ _ rfl rfl rfl rfl rfl).1

/-! ### Claim C10 -/

def nowC10 : DateTime := ⟨2025, 7, 13, 12, 0, 0, 0⟩

def linesC10 : List (List Char) :=
  ["[x] alpha".toList, "   ".toList, "beta".toList]

/-- Claim C10: a line that is blank after stripping never produces a
LogEntry (every produced entry has a nonempty stripped raw line), yet it
still occupies its slot in the per-source tail window and consumes a line
number: for the concrete three-line window with a whitespace-only middle
line, the produced entries carry window line numbers 1 and 3, and their
count (2) is strictly below the number of physical lines kept by the
per-source tail limit (3). -/
theorem processLines_skips_blank_lines :
    (∀ (now : DateTime) (src fl : String) (cutoff : Option Nat) (i : Nat)
        (lines : List (List Char)) (e : LogEntry),
        e ∈ processLines now src fl cutoff i lines → e.raw_line.isEmpty = false) ∧
    ((parseLogFile nowC10 (Except.ok linesC10) "p" "renumber" 50 "all" none).map
        (fun e => (e.line_number, e.raw_line))
      = [(1, "[x] alpha".toList), (3, "beta".toList)]) ∧
    (parseLogFile nowC10 (Except.ok linesC10) "p" "renumber" 50 "all" none).length
      < (pyTail 50 linesC10).length := by
  refine ⟨?_, rfl, by decide⟩
  intro now src fl cutoff i lines e he
  exact (processLines_mem he).2.2

/-- Claim C10 witness: the entry produced for the third physical line of
the window has a nonempty raw line. -/
theorem processLines_skips_blank_lines_witness :
    (parseLogLine nowC10 ("beta".toList) "renumber" 3).raw_line.isEmpty = false :=
  processLines_skips_blank_lines.1 nowC10 "renumber" "all" none 1 linesC10
    (parseLogLine nowC10 ("beta".toList) "renumber" 3) (by decide)

end TycoonLogs
